import Mathlib

/-!
Shallow embedding of `src/maxtouch.c` (maXTouch trackpad driver core):
the capability-table resolver `read_object_table`, the configuration
writer `write_configuration`, and the event decoder `read_messages`.

Bus transport is modelled as oracles: each read either succeeds with a
record or fails; writes are collected into a list.  Machine integers are
modelled as `Nat` with explicit truncation (`% 256` for `uint8_t`,
`% 65536` for `uint16_t`) at the points where the C types constrain the
values.  Fallible array indexing is `Option`-valued so that an
out-of-bounds access in the source surfaces as `none` instead of
undefined behaviour.
-/

/-- Truncation to `uint8_t`. -/
def u8 (n : Nat) : Nat := n % 256

/-- Truncation to `uint16_t`. -/
def u16 (n : Nat) : Nat := n % 65536

/-- NUM_FINGERS from `src/maxtouch.c` line 21. -/
def NUM_FINGERS : Nat := 5

/-- MXT_DEFAULT_DPI from `src/maxtouch.c` line 17. -/
def MXT_DEFAULT_DPI : Nat := 600

/-- MXT_TOUCH_THRESHOLD from `src/maxtouch.c` line 18. -/
def MXT_TOUCH_THRESHOLD : Nat := 18

/-- MXT_GAIN from `src/maxtouch.c` line 19. -/
def MXT_GAIN : Nat := 4

/-- MXT_DX_GAIN from `src/maxtouch.c` line 20. -/
def MXT_DX_GAIN : Nat := 255

/-- DIVIDE_UNSIGNED_ROUND from `src/maxtouch.c` line 5:
`(((numerator) + ((denominator) / 2)) / (denominator))`. -/
def DIVIDE_UNSIGNED_ROUND (numerator denominator : Nat) : Nat :=
  (numerator + denominator / 2) / denominator

/-- CPI_TO_SAMPLES from `src/maxtouch.c` line 6. -/
def CPI_TO_SAMPLES (cpi dist_in_mm : Nat) : Nat :=
  DIVIDE_UNSIGNED_ROUND (cpi * dist_in_mm * 10) 254

/-- SAMPLES_TO_CPI from `src/maxtouch.c` line 7. -/
def SAMPLES_TO_CPI (samples dist_in_mm : Nat) : Nat :=
  DIVIDE_UNSIGNED_ROUND (samples * 254) (dist_in_mm * 10)

/-- Modelled from the spec: the fixed-size capability-table header
(`mxt_information_block`, declared in the header file absent from src).
Field names are taken from their uses in `src/maxtouch.c`; all fields
are byte-valued on the wire. -/
structure mxt_information_block where
  family_id : Nat
  variant_id : Nat
  version : Nat
  build : Nat
  matrix_x_size : Nat
  matrix_y_size : Nat
  num_objects : Nat
deriving DecidableEq

/-- Modelled from the spec: the fixed-size capability-table entry
(`mxt_object_table_element`, declared in the header file absent from
src).  Field names are taken from their uses in `src/maxtouch.c`. -/
structure mxt_object_table_element where
  type : Nat
  position_ls_byte : Nat
  position_ms_byte : Nat
  size_minus_one : Nat
  instances_minus_one : Nat
  report_ids_per_instance : Nat
deriving DecidableEq

/-- Modelled from the spec: `sizeof(mxt_information_block)` — the header
is a fixed-size binary record; seven byte-wide fields. -/
def szInformationBlock : Nat := 7

/-- Modelled from the spec: `sizeof(mxt_object_table_element)` — each
capability-table entry is a fixed-size binary record; six byte-wide
fields. -/
def szObjectTableElement : Nat := 6

/-- Big-endian combination of the two 8-bit address parts,
`(object.position_ms_byte << 8) | object.position_ls_byte`
(`src/maxtouch.c` line 88). -/
def be16 (ms ls : Nat) : Nat := (u8 ms <<< 8) ||| u8 ls

/-- The process-wide mutable state of `src/maxtouch.c` lines 25-44:
the resolved register addresses, the t100 report-id assignment and the
current CPI. -/
structure MxtState where
  t2_encryption_status_address : Nat
  t5_message_processor_address : Nat
  t5_max_message_size : Nat
  t6_command_processor_address : Nat
  t7_powerconfig_address : Nat
  t8_acquisitionconfig_address : Nat
  t44_message_count_address : Nat
  t46_cte_config_address : Nat
  t100_multiple_touch_touchscreen_address : Nat
  t100_first_report_id : Nat
  t100_second_report_id : Nat
  t100_subsequent_report_ids : List Nat
  t100_num_reports : Nat
  cpi : Nat
deriving DecidableEq

/-- The initial values of the statics of `src/maxtouch.c`: all addresses
and report ids zero, `cpi = MXT_DEFAULT_DPI`. -/
def initialState : MxtState :=
  { t2_encryption_status_address := 0
    t5_message_processor_address := 0
    t5_max_message_size := 0
    t6_command_processor_address := 0
    t7_powerconfig_address := 0
    t8_acquisitionconfig_address := 0
    t44_message_count_address := 0
    t46_cte_config_address := 0
    t100_multiple_touch_touchscreen_address := 0
    t100_first_report_id := 0
    t100_second_report_id := 0
    t100_subsequent_report_ids := List.replicate NUM_FINGERS 0
    t100_num_reports := 0
    cpi := MXT_DEFAULT_DPI }

/-- The switch statement of `src/maxtouch.c` lines 89-122: dispatch on
the entry type, recording the resolved address, and for type 100 the
report-id assignment.  The for-loop of lines 117-120 writes
`report_id + 2 + i` into slot `i` for every
`i < min NUM_FINGERS report_ids_per_instance`, leaves the remaining
slots unchanged, and leaves `t100_num_reports` at that minimum.
Assignments to `uint16_t` statics truncate with `u16`. -/
def processObject (s : MxtState) (report_id : Nat)
    (object : mxt_object_table_element) : MxtState :=
  let address := be16 object.position_ms_byte object.position_ls_byte
  match u8 object.type with
  | 2 => { s with t2_encryption_status_address := address }
  | 5 => { s with t5_message_processor_address := address
                  t5_max_message_size := u16 (u8 object.size_minus_one + 65535) }
  | 6 => { s with t6_command_processor_address := address }
  | 7 => { s with t7_powerconfig_address := address }
  | 8 => { s with t8_acquisitionconfig_address := address }
  | 44 => { s with t44_message_count_address := address }
  | 46 => { s with t46_cte_config_address := address }
  | 100 =>
    let num := min NUM_FINGERS (u8 object.report_ids_per_instance)
    { s with t100_multiple_touch_touchscreen_address := address
             t100_first_report_id := u16 report_id
             t100_second_report_id := u16 (report_id + 1)
             t100_num_reports := num
             t100_subsequent_report_ids :=
               (List.range NUM_FINGERS).map fun i =>
                 if i < num then u16 (report_id + 2 + i)
                 else s.t100_subsequent_report_ids.getD i 0 }
  | _ => s

/-- Bus-read oracle for `read_object_table`: the header read, and the
result of the i-th entry-read attempt (reads may fail, and distinct
attempts may return distinct results). -/
structure ObjectTableReads where
  info : Option mxt_information_block
  obj : Nat → Option mxt_object_table_element

/-- The loop-local variables of `read_object_table`
(`src/maxtouch.c` lines 77-78), plus the trace of addresses at which
entry reads were attempted. -/
structure LoopState where
  st : MxtState
  report_id : Nat
  addr : Nat
  trace : List Nat
deriving DecidableEq

/-- One iteration of the resolution loop (`src/maxtouch.c` lines
79-130).  On a successful read the entry is dispatched, the element
address advances by `sizeof(mxt_object_table_element)` and the report-id
counter advances by `report_ids_per_instance * (instances_minus_one + 1)`
(lines 123-124); on a failed read nothing advances (lines 126-129 only
print). -/
def objectStep (o : Nat → Option mxt_object_table_element)
    (ls : LoopState) (i : Nat) : LoopState :=
  match o i with
  | some object =>
    { st := processObject ls.st ls.report_id object
      report_id := ls.report_id +
        u8 object.report_ids_per_instance * (u8 object.instances_minus_one + 1)
      addr := ls.addr + szObjectTableElement
      trace := ls.trace ++ [ls.addr] }
  | none => { ls with trace := ls.trace ++ [ls.addr] }

/-- The resolution loop run for `n` iterations. -/
def objectLoop (o : Nat → Option mxt_object_table_element) (n : Nat)
    (init : LoopState) : LoopState :=
  (List.range n).foldl (objectStep o) init

/-- read_object_table from `src/maxtouch.c` lines 57-136.  Returns the
final state, the final report-id counter and the trace of entry-read
addresses.  A header-read failure leaves the state untouched and reads
no entries (lines 132-135). -/
def read_object_table (s : MxtState) (o : ObjectTableReads) :
    MxtState × Nat × List Nat :=
  match o.info with
  | some information =>
    let ls := objectLoop o.obj (u8 information.num_objects)
      { st := s, report_id := 1, addr := szInformationBlock, trace := [] }
    (ls.st, ls.report_id, ls.trace)
  | none => (s, 1, [])

/-- Modelled from the spec: T7 configuration flags (header file absent
from src); bit values per the vendor datasheet, exact values immaterial
to the claims. -/
def T7_CFG_ACTVPIPEEN : Nat := 8

/-- Modelled from the spec: T7 configuration flag (header file absent
from src). -/
def T7_CFG_IDLEPIPEEN : Nat := 4

/-- Modelled from the spec: T100 control flag (enable the object);
header file absent from src. -/
def T100_CTRL_ENABLE : Nat := 1

/-- Modelled from the spec: T100 control flag (enable message
reporting); header file absent from src. -/
def T100_CTRL_RPTEN : Nat := 2

/-- Modelled from the spec: T100 axis-switch configuration flag; header
file absent from src. -/
def T100_CFG_SWITCHXY : Nat := 32

/-- mxt_gen_powerconfig_t7 record, fields as set in `src/maxtouch.c`
lines 145-149. -/
structure mxt_gen_powerconfig_t7 where
  idleacqint : Nat
  actacqint : Nat
  actv2idelto : Nat
  cfg : Nat
deriving DecidableEq

/-- Modelled from the spec: mxt_gen_acquisitionconfig_t8 record, written
with defaults (a zeroed record) in `src/maxtouch.c` lines 159-161. -/
structure mxt_gen_acquisitionconfig_t8 where
  chrgtime : Nat
deriving DecidableEq

/-- Modelled from the spec: mxt_spt_cteconfig_t46 record, written with
defaults (a zeroed record) in `src/maxtouch.c` lines 169-171. -/
structure mxt_spt_cteconfig_t46 where
  ctrl : Nat
deriving DecidableEq

/-- mxt_touch_multiscreen_t100 record, fields as set in
`src/maxtouch.c` lines 183-209 (remaining vendor fields are untouched
by the writer and omitted). -/
structure mxt_touch_multiscreen_t100 where
  ctrl : Nat
  cfg1 : Nat
  scraux : Nat
  numtch : Nat
  xsize : Nat
  ysize : Nat
  xpitch : Nat
  ypitch : Nat
  gain : Nat
  dxgain : Nat
  tchthr : Nat
  mrgthr : Nat
  mrghyst : Nat
  movsmooth : Nat
  movfilter : Nat
  movhysti : Nat
  movhystn : Nat
  xrange : Nat
  yrange : Nat
deriving DecidableEq

/-- The zero-initialized `mxt_touch_multiscreen_t100 cfg = {};` of
`src/maxtouch.c` line 180. -/
def zeroT100 : mxt_touch_multiscreen_t100 :=
  { ctrl := 0, cfg1 := 0, scraux := 0, numtch := 0, xsize := 0, ysize := 0
    xpitch := 0, ypitch := 0, gain := 0, dxgain := 0, tchthr := 0
    mrgthr := 0, mrghyst := 0, movsmooth := 0, movfilter := 0
    movhysti := 0, movhystn := 0, xrange := 0, yrange := 0 }

/-- Field assignments of `src/maxtouch.c` lines 183-209 applied to a
t100 record (the non-DIGITIZER_INVERT_X branch of line 188).  The
source reads the matrix sizes from the information block and the sensor
dimensions from header constants; they are passed here as parameters
`mx my w h`. -/
def t100_configure (cfg : mxt_touch_multiscreen_t100)
    (cpi mx my w h : Nat) : mxt_touch_multiscreen_t100 :=
  { cfg with
    ctrl := T100_CTRL_RPTEN ||| T100_CTRL_ENABLE
    cfg1 := T100_CFG_SWITCHXY
    scraux := 1
    numtch := NUM_FINGERS
    xsize := mx
    ysize := my
    xpitch := w / mx
    ypitch := h / my
    gain := MXT_GAIN
    dxgain := MXT_DX_GAIN
    tchthr := MXT_TOUCH_THRESHOLD
    mrgthr := 5
    mrghyst := 5
    movsmooth := 224
    movfilter := 4 &&& 15
    movhysti := 6
    movhystn := 4
    xrange := u16 (CPI_TO_SAMPLES cpi h)
    yrange := u16 (CPI_TO_SAMPLES cpi w) }

/-- One bus write issued by `write_configuration`: target address and
record written. -/
inductive bus_write where
  | t7 : Nat → mxt_gen_powerconfig_t7 → bus_write
  | t8 : Nat → mxt_gen_acquisitionconfig_t8 → bus_write
  | t46 : Nat → mxt_spt_cteconfig_t46 → bus_write
  | t100 : Nat → mxt_touch_multiscreen_t100 → bus_write
deriving DecidableEq

/-- Bus-read oracle for `write_configuration`: the initial read of the
current t100 record (`src/maxtouch.c` lines 181-182); `none` means the
read failed, in which case the stack record keeps its zero
initialization. -/
structure ConfigReads where
  t100_read : Option mxt_touch_multiscreen_t100

/-- write_configuration from `src/maxtouch.c` lines 138-218: for each
capability whose address is nonzero, emit one write; absent (zero)
addresses are skipped.  The t100 branch reads the current record but
ignores the read status (line 181: `status` is assigned and never
checked), sets the configuration fields and writes the record back.
Write statuses only feed diagnostics (lines 213-216) and are not
modelled. -/
def write_configuration (s : MxtState) (o : ConfigReads)
    (w h mx my : Nat) : List bus_write :=
  (if s.t7_powerconfig_address ≠ 0 then
    [bus_write.t7 s.t7_powerconfig_address
      { idleacqint := 32, actacqint := 10, actv2idelto := 50
        cfg := T7_CFG_ACTVPIPEEN ||| T7_CFG_IDLEPIPEEN }]
   else []) ++
  (if s.t8_acquisitionconfig_address ≠ 0 then
    [bus_write.t8 s.t8_acquisitionconfig_address { chrgtime := 0 }]
   else []) ++
  (if s.t46_cte_config_address ≠ 0 then
    [bus_write.t46 s.t46_cte_config_address { ctrl := 0 }]
   else []) ++
  (if s.t100_multiple_touch_touchscreen_address ≠ 0 then
    [bus_write.t100 s.t100_multiple_touch_touchscreen_address
      (t100_configure (Option.getD o.t100_read zeroT100) s.cpi mx my w h)]
   else [])

/-- Modelled from the spec: the six t100 event-tag nibble codes used in
`src/maxtouch.c` lines 254-263 (UNSUPPRESSED-RELEASE). The enum lives
in the header file absent from src; the codes are distinct low-nibble
values per the vendor datasheet. -/
def UNSUP : Nat := 2

/-- Modelled from the spec: SUPPRESSED event tag (header absent from
src). -/
def SUP : Nat := 3

/-- Modelled from the spec: DOWN event tag (header absent from src). -/
def DOWN : Nat := 4

/-- Modelled from the spec: UP event tag (header absent from src). -/
def UP : Nat := 5

/-- Modelled from the spec: DOWN-THEN-SUPPRESSED event tag (header
absent from src). -/
def DOWNSUP : Nat := 8

/-- Modelled from the spec: DOWN-THEN-UP event tag (header absent from
src). -/
def DOWNUP : Nat := 9

/-- finger_t from `src/maxtouch.c` lines 46-51. -/
structure finger_t where
  confidence : Bool
  tip : Bool
  x : Nat
  y : Nat
deriving DecidableEq

/-- A zero-initialized finger record (placeholder for in-bounds reads;
its value is never observable because every read is guarded by a bounds
check). -/
def finger_default : finger_t :=
  { confidence := false, tip := false, x := 0, y := 0 }

/-- digitizer_t from `src/maxtouch.c` lines 53-55. -/
structure digitizer_t where
  fingers : List finger_t
deriving DecidableEq

/-- mxt_message from `src/maxtouch.c` lines 238-271: a report id and a
byte array payload (the byte array is modelled as a function; reads
truncate with `u8`). -/
structure mxt_message where
  report_id : Nat
  data : Nat → Nat

/-- C array indexing with a possibly-negative index, made total with
`Option`: `none` models an out-of-bounds access (negative index or
index beyond the array length). -/
def listIdx (l : List Nat) (i : Int) : Option Nat :=
  match i with
  | Int.ofNat n => l.get? n
  | Int.negSucc _ => none

/-- Event tag decoded from the low nibble of payload byte 0,
`message.data[0] & 0xf` (`src/maxtouch.c` line 250). -/
def eventOf (m : mxt_message) : Nat := u8 (m.data 0) &&& 15

/-- Little-endian x coordinate, `message.data[1] | (message.data[2] << 8)`
(`src/maxtouch.c` line 251). -/
def xOf (m : mxt_message) : Nat := u8 (m.data 1) ||| (u8 (m.data 2) <<< 8)

/-- Little-endian y coordinate, `message.data[3] | (message.data[4] << 8)`
(`src/maxtouch.c` line 252). -/
def yOf (m : mxt_message) : Nat := u8 (m.data 3) ||| (u8 (m.data 4) <<< 8)

/-- The per-finger state transition of `src/maxtouch.c` lines 253-267:
DOWN sets tip; UP, UNSUP and DOWNUP clear tip; confidence is recomputed
as the negation of (event is SUP or DOWNSUP); the position is updated
unless the event is UP. -/
def applyEvent (f : finger_t) (event x y : Nat) : finger_t :=
  let f1 := if event = DOWN then { f with tip := true } else f
  let f2 := if event = UP ∨ event = UNSUP ∨ event = DOWNUP then
    { f1 with tip := false } else f1
  let f3 := { f2 with confidence := !(event == SUP || event == DOWNSUP) }
  if event = UP then f3 else { f3 with x := x, y := y }

/-- The unhandled-record diagnostic of `src/maxtouch.c` line 271: the
printf arguments read `t100_subsequent_report_ids[0]`,
`t100_subsequent_report_ids[t100_num_reports]` (out of bounds when all
NUM_FINGERS slots are assigned) and
`t100_subsequent_report_ids[t100_num_reports - 1]` (index `-1` when
`t100_num_reports = 0`).  The record produces no state change, but an
out-of-bounds argument read surfaces as `none`. -/
def unhandledDiagnostic (s : MxtState) (d : digitizer_t) :
    Option digitizer_t :=
  match listIdx s.t100_subsequent_report_ids 0,
        listIdx s.t100_subsequent_report_ids (s.t100_num_reports : Int),
        listIdx s.t100_subsequent_report_ids
          ((s.t100_num_reports : Int) - 1) with
  | some _, some _, some _ => some d
  | _, _, _ => none

/-- Processing of one event record, `src/maxtouch.c` lines 242-272.
The classification guard mirrors the source's short-circuit `&&`:
`t100_subsequent_report_ids[0]` is evaluated first, and
`t100_subsequent_report_ids[t100_num_reports - 1]` (an `int` index,
hence `-1` when `t100_num_reports = 0`) only if the first comparison
succeeded; an out-of-bounds array access yields `none`.  `contact_id`
is truncated to `uint8_t`.  A record matching neither the first report
id nor the per-finger range reaches the diagnostic of line 271, whose
argument reads are modelled by `unhandledDiagnostic`. -/
def processMessage (s : MxtState) (d : digitizer_t) (m : mxt_message) :
    Option digitizer_t :=
  if m.report_id = s.t100_first_report_id then
    some d
  else
    match listIdx s.t100_subsequent_report_ids 0 with
    | none => none
    | some id0 =>
      if id0 ≤ m.report_id then
        match listIdx s.t100_subsequent_report_ids
            ((s.t100_num_reports : Int) - 1) with
        | none => none
        | some idLast =>
          if m.report_id ≤ idLast then
            let contact_id := u8 (m.report_id - id0)
            if contact_id < d.fingers.length then
              some ⟨d.fingers.set contact_id
                (applyEvent (d.fingers.getD contact_id finger_default)
                  (eventOf m) (xOf m) (yOf m))⟩
            else none
          else unhandledDiagnostic s d
      else unhandledDiagnostic s d

/-- The message loop body folded over a list of records; a `none` from
record processing (an out-of-bounds access in the source) aborts. -/
def runMessages (s : MxtState) (msgs : List mxt_message)
    (d : digitizer_t) : Option digitizer_t :=
  match msgs with
  | [] => some d
  | m :: rest =>
    match processMessage s d m with
    | some d2 => runMessages s rest d2
    | none => none

/-- Bus-read oracle for `read_messages`: the t44 message-count read
(which may fail) and the i-th t5 message read.  The source assigns but
never checks the per-message read status (`src/maxtouch.c` lines
239-240), so message reads are modelled as always yielding a buffer. -/
structure MessageReads where
  message_count : Option Nat
  messages : Nat → mxt_message

/-- read_messages from `src/maxtouch.c` lines 227-277: if the t44
address is unresolved (zero) the state is returned unchanged; otherwise
the message count is read, a failed count read returns the state
unchanged, and otherwise exactly `count` records are read and folded
into the state. -/
def read_messages (s : MxtState) (o : MessageReads) (d : digitizer_t) :
    Option digitizer_t :=
  if s.t44_message_count_address ≠ 0 then
    match o.message_count with
    | some count =>
      runMessages s ((List.range (u8 count)).map o.messages) d
    | none => some d
  else some d

/-- The event-id assignment invariant that `read_object_table`
establishes when it resolves a touch capability: the id array has
capacity NUM_FINGERS, at least one and at most NUM_FINGERS per-finger
ids are assigned, and the assigned ids are consecutive starting at
`t100_first_report_id + 2`. -/
def id_assignment_wf (s : MxtState) : Prop :=
  s.t100_subsequent_report_ids.length = NUM_FINGERS ∧
  1 ≤ s.t100_num_reports ∧
  s.t100_num_reports ≤ NUM_FINGERS ∧
  ∀ i, i < s.t100_num_reports →
    s.t100_subsequent_report_ids.get? i =
      some (s.t100_first_report_id + 2 + i)

/-- Decidable strict monotonicity of a list of addresses. -/
def strictIncr : List Nat → Bool
  | [] => true
  | [_] => true
  | a :: b :: rest => Nat.blt a b && strictIncr (b :: rest)

/-- The element address at which the i-th entry-read attempt of the
resolution loop happens: it starts at `sizeof(mxt_information_block)`
and advances by `sizeof(mxt_object_table_element)` exactly when the
previous attempt succeeded (`src/maxtouch.c` line 123 sits inside the
`status == OK` branch). -/
def addrAt (o : Nat → Option mxt_object_table_element) : Nat → Nat
  | 0 => szInformationBlock
  | i + 1 => addrAt o i +
    match o i with
    | some _ => szObjectTableElement
    | none => 0

/-- Concrete capability-table entry used as test data. -/
def sampleElement : mxt_object_table_element :=
  { type := 7, position_ls_byte := 16, position_ms_byte := 0
    size_minus_one := 3, instances_minus_one := 1
    report_ids_per_instance := 2 }

/-- Concrete t100 capability-table entry used as test data:
7 reports per instance, 1 instance. -/
def touchElement : mxt_object_table_element :=
  { type := 100, position_ls_byte := 0, position_ms_byte := 4
    size_minus_one := 9, instances_minus_one := 0
    report_ids_per_instance := 7 }

/-- Oracle for a two-entry table whose first entry read fails and whose
second succeeds. -/
def failFirstReads : ObjectTableReads :=
  { info := some { family_id := 166, variant_id := 0, version := 1
                   build := 0, matrix_x_size := 14, matrix_y_size := 10
                   num_objects := 2 }
    obj := fun i => if i = 0 then none else some sampleElement }

/-- Oracle for a two-entry table whose reads both succeed. -/
def twoEntryReads : ObjectTableReads :=
  { info := some { family_id := 166, variant_id := 0, version := 1
                   build := 0, matrix_x_size := 14, matrix_y_size := 10
                   num_objects := 2 }
    obj := fun i => if i = 0 then some touchElement else some sampleElement }

/-- Oracle whose header read fails. -/
def headerFailReads : ObjectTableReads :=
  { info := none, obj := fun _ => none }

/-- A resolved state satisfying `id_assignment_wf`: first report id 1,
per-finger ids 3..7, message-count and message-processor capabilities
resolved. -/
def wfState : MxtState :=
  { initialState with
    t5_message_processor_address := 1100
    t44_message_count_address := 1200
    t100_multiple_touch_touchscreen_address := 1300
    t100_first_report_id := 1
    t100_second_report_id := 2
    t100_subsequent_report_ids := [3, 4, 5, 6, 7]
    t100_num_reports := 5 }

/-- An all-inactive digitizer state at full capacity. -/
def emptyDigitizer : digitizer_t :=
  { fingers := List.replicate NUM_FINGERS finger_default }

/-- A state in which only the t100 address resolved. -/
def t100OnlyState : MxtState :=
  { initialState with t100_multiple_touch_touchscreen_address := 900 }

/-- A DOWN event record for finger `k` at position (100, 200):
report id `first + 2 + k`, payload byte 0 the DOWN tag, bytes 1-2 the
little-endian x, bytes 3-4 the little-endian y. -/
def downMessage (first k : Nat) : mxt_message :=
  { report_id := first + 2 + k
    data := fun j => if j = 0 then DOWN else if j = 1 then 100
      else if j = 3 then 200 else 0 }

/-- An UP event record for finger `k`: report id `first + 2 + k`,
payload byte 0 the UP tag, remaining payload zero. -/
def upMessage (first k : Nat) : mxt_message :=
  { report_id := first + 2 + k
    data := fun j => if j = 0 then UP else 0 }

/-- Every entry of the address map is absent: all resolved addresses
hold the distinguished value 0. -/
def addressMapAbsent (s : MxtState) : Prop :=
  s.t2_encryption_status_address = 0 ∧
  s.t5_message_processor_address = 0 ∧
  s.t6_command_processor_address = 0 ∧
  s.t7_powerconfig_address = 0 ∧
  s.t8_acquisitionconfig_address = 0 ∧
  s.t44_message_count_address = 0 ∧
  s.t46_cte_config_address = 0 ∧
  s.t100_multiple_touch_touchscreen_address = 0

/-- The report-id counter advance contributed by one entry-read attempt:
`report_ids_per_instance * (instances_minus_one + 1)` on success, zero
on failure (`src/maxtouch.c` line 124 sits inside the `status == OK`
branch). -/
def advOpt (r : Option mxt_object_table_element) : Nat :=
  match r with
  | some object =>
    u8 object.report_ids_per_instance * (u8 object.instances_minus_one + 1)
  | none => 0

/-- Rounding helper: `DIVIDE_UNSIGNED_ROUND n d` is within half of the
exact quotient `n / d`. -/
theorem divide_round_nearest (n d : Nat) (hd : 0 < d) :
    2 * n ≤ 2 * (d * DIVIDE_UNSIGNED_ROUND n d) + d ∧
    2 * (d * DIVIDE_UNSIGNED_ROUND n d) ≤ 2 * n + d := by
  have h1 := Nat.div_add_mod (n + d / 2) d
  have h2 : (n + d / 2) % d < d := Nat.mod_lt _ hd
  unfold DIVIDE_UNSIGNED_ROUND
  omega

/-- Rounding helper: on an exact half (an even denominator with
remainder exactly half of it), `DIVIDE_UNSIGNED_ROUND` rounds up, i.e.
away from zero for unsigned operands. -/
theorem divide_round_half_up (n d : Nat) (hd : 0 < d)
    (htie : 2 * (n % d) = d) :
    DIVIDE_UNSIGNED_ROUND n d = n / d + 1 := by
  have h1 := Nat.div_add_mod n d
  unfold DIVIDE_UNSIGNED_ROUND
  have key : n + d / 2 = d * (n / d + 1) := by
    rw [Nat.mul_add, Nat.mul_one]
    omega
  rw [key, Nat.mul_div_cancel_left _ hd]

/-- C6: the CPI/samples conversions are integer divisions rounded
half-away-from-zero — `CPI_TO_SAMPLES` and `SAMPLES_TO_CPI` are
`DIVIDE_UNSIGNED_ROUND` applications whose result is within half a
denominator of the exact quotient and which round an exact half up
(away from zero) — and the round trip `SAMPLES_TO_CPI
(CPI_TO_SAMPLES 600 40) 40` returns 600, which is within 1 of 600. -/
theorem c6_cpi_rounding :
    (∀ cpi dist_in_mm, 0 < dist_in_mm →
      CPI_TO_SAMPLES cpi dist_in_mm =
        DIVIDE_UNSIGNED_ROUND (cpi * dist_in_mm * 10) 254 ∧
      SAMPLES_TO_CPI cpi dist_in_mm =
        DIVIDE_UNSIGNED_ROUND (cpi * 254) (dist_in_mm * 10)) ∧
    (∀ n d, 0 < d →
      2 * n ≤ 2 * (d * DIVIDE_UNSIGNED_ROUND n d) + d ∧
      2 * (d * DIVIDE_UNSIGNED_ROUND n d) ≤ 2 * n + d) ∧
    (∀ n d, 0 < d → 2 * (n % d) = d →
      DIVIDE_UNSIGNED_ROUND n d = n / d + 1) ∧
    (SAMPLES_TO_CPI (CPI_TO_SAMPLES 600 40) 40 = 600 ∧
      600 - 1 ≤ SAMPLES_TO_CPI (CPI_TO_SAMPLES 600 40) 40 ∧
      SAMPLES_TO_CPI (CPI_TO_SAMPLES 600 40) 40 ≤ 600 + 1) := by
  refine ⟨fun cpi dist_in_mm _ => ⟨rfl, rfl⟩,
    divide_round_nearest, divide_round_half_up, by decide⟩

/-- Witness for C6 at concrete inputs. -/
theorem c6_cpi_rounding_witness :
    ((0:Nat) < 254 ∧
      2 * (254 * DIVIDE_UNSIGNED_ROUND 1000 254) ≤ 2 * 1000 + 254) ∧
    ((0:Nat) < 4 ∧ 2 * (6 % 4) = 4 ∧
      DIVIDE_UNSIGNED_ROUND 6 4 = 6 / 4 + 1) :=
  ⟨⟨by decide, (c6_cpi_rounding.2.1 1000 254 (by decide)).2⟩,
   ⟨by decide, by decide, c6_cpi_rounding.2.2.1 6 4 (by decide) (by decide)⟩⟩

/-- Unrolling helper: one more iteration of the resolution loop. -/
theorem objectLoop_succ (o : Nat → Option mxt_object_table_element)
    (n : Nat) (init : LoopState) :
    objectLoop o (n + 1) init = objectStep o (objectLoop o n init) n := by
  unfold objectLoop
  rw [List.range_succ, List.foldl_append, List.foldl_cons, List.foldl_nil]

/-- Reduction of `advOpt` on a successful read. -/
theorem advOpt_some (object : mxt_object_table_element) :
    advOpt (some object) =
      u8 object.report_ids_per_instance * (u8 object.instances_minus_one + 1) :=
  rfl

/-- Reduction of `advOpt` on a failed read. -/
theorem advOpt_none : advOpt none = 0 := rfl

/-- The report-id counter after `n` iterations is the initial counter
plus the sum of the per-attempt advances. -/
theorem objectLoop_report_id (o : Nat → Option mxt_object_table_element)
    (n : Nat) (init : LoopState) :
    (objectLoop o n init).report_id =
      init.report_id + ((List.range n).map (fun i => advOpt (o i))).sum := by
  induction n with
  | zero => simp [objectLoop]
  | succ n ih =>
    rw [objectLoop_succ, List.range_succ, List.map_append, List.sum_append]
    simp only [List.map_cons, List.map_nil, List.sum_cons, List.sum_nil]
    unfold objectStep
    cases h : o n with
    | some object =>
      dsimp only
      rw [advOpt_some, ih]
      omega
    | none =>
      dsimp only
      rw [advOpt_none, ih]
      omega

/-- The element address and read trace after `n` iterations: the i-th
read is attempted at `addrAt o i`, which advances only on success. -/
theorem objectLoop_addr_trace (o : Nat → Option mxt_object_table_element)
    (n : Nat) (s : MxtState) (r : Nat) :
    (objectLoop o n ⟨s, r, szInformationBlock, []⟩).addr = addrAt o n ∧
    (objectLoop o n ⟨s, r, szInformationBlock, []⟩).trace =
      (List.range n).map (addrAt o) := by
  induction n with
  | zero => exact ⟨rfl, rfl⟩
  | succ n ih =>
    obtain ⟨iha, iht⟩ := ih
    rw [objectLoop_succ]
    unfold objectStep
    cases h : o n with
    | some object =>
      dsimp only
      refine ⟨?_, ?_⟩
      · rw [iha]
        simp [addrAt, h]
      · rw [iht, iha, List.range_succ, List.map_append]
        simp [addrAt, h]
    | none =>
      dsimp only
      refine ⟨?_, ?_⟩
      · rw [iha]
        simp [addrAt, h]
      · rw [iht, iha, List.range_succ, List.map_append]
        simp [addrAt, h]

/-- C1: for every successfully read capability-table entry, the running
event-id counter (starting at 1) advances by
`report_ids_per_instance * (instances_minus_one + 1)` regardless of the
entry's type, so after a resolution run in which all N entry reads
succeed the counter equals 1 plus the sum of that product over the N
entries. -/
theorem c1_report_id_counter (o : ObjectTableReads)
    (information : mxt_information_block)
    (e : Nat → mxt_object_table_element)
    (hinfo : o.info = some information)
    (hsucc : ∀ i, i < u8 information.num_objects → o.obj i = some (e i))
    (hbyte : ∀ i, i < u8 information.num_objects →
      (e i).report_ids_per_instance < 256 ∧
        (e i).instances_minus_one < 256) :
    (read_object_table initialState o).2.1 =
      1 + ((List.range (u8 information.num_objects)).map
        (fun i => (e i).report_ids_per_instance *
          ((e i).instances_minus_one + 1))).sum := by
  unfold read_object_table
  rw [hinfo]
  dsimp only
  rw [objectLoop_report_id]
  have hmap : ∀ i ∈ List.range (u8 information.num_objects),
      advOpt (o.obj i) = (e i).report_ids_per_instance *
        ((e i).instances_minus_one + 1) := by
    intro i hi
    rw [List.mem_range] at hi
    rw [hsucc i hi, advOpt_some]
    obtain ⟨h1, h2⟩ := hbyte i hi
    unfold u8
    rw [Nat.mod_eq_of_lt h1, Nat.mod_eq_of_lt h2]
  rw [List.map_congr_left hmap]

/-- Witness for C1: a two-entry table (one touch entry with 7 reports
per instance and 1 instance, one entry with 2 reports per instance and
2 instances) leaves the counter at 1 + 7 + 4 = 12. -/
theorem c1_report_id_counter_witness :
    twoEntryReads.info = some ⟨166, 0, 1, 0, 14, 10, 2⟩ ∧
    (∀ i, i < u8 2 → twoEntryReads.obj i =
      some (if i = 0 then touchElement else sampleElement)) ∧
    (read_object_table initialState twoEntryReads).2.1 = 12 := by
  refine ⟨rfl, by decide, ?_⟩
  have h := c1_report_id_counter twoEntryReads ⟨166, 0, 1, 0, 14, 10, 2⟩
    (fun i => if i = 0 then touchElement else sampleElement)
    rfl (by decide) (by decide)
  rw [h]
  decide

/-- C3 counterexample: with a two-entry table whose first entry read
fails and whose second succeeds, both entry reads are attempted at the
same address `szInformationBlock` — the sequence of read addresses is
not strictly increasing across the failed read, because the address
increment sits inside the success branch (`src/maxtouch.c` line 123). -/
theorem c3_counterexample :
    (read_object_table initialState failFirstReads).2.2 =
      [szInformationBlock, szInformationBlock] ∧
    strictIncr (read_object_table initialState failFirstReads).2.2 = false := by
  constructor
  · decide
  · decide

/-- C3 amended: a failed entry read is skipped (nothing is recorded)
and the loop continues, but the element address does not advance across
the failure — the i-th read is attempted at `addrAt o i`, which grows
by the element size exactly when the previous read succeeded and stays
unchanged when it failed. -/
theorem c3_address_advance (o : ObjectTableReads)
    (information : mxt_information_block)
    (hinfo : o.info = some information) :
    (read_object_table initialState o).2.2 =
      (List.range (u8 information.num_objects)).map (addrAt o.obj) ∧
    (∀ i, o.obj i = none → addrAt o.obj (i + 1) = addrAt o.obj i) ∧
    (∀ i object, o.obj i = some object →
      addrAt o.obj (i + 1) = addrAt o.obj i + szObjectTableElement) := by
  refine ⟨?_, ?_, ?_⟩
  · unfold read_object_table
    rw [hinfo]
    dsimp only
    exact (objectLoop_addr_trace o.obj (u8 information.num_objects)
      initialState 1).2
  · intro i h
    simp [addrAt, h]
  · intro i object h
    simp [addrAt, h]

/-- Witness for C3 amended at the concrete failing oracle. -/
theorem c3_address_advance_witness :
    failFirstReads.info = some ⟨166, 0, 1, 0, 14, 10, 2⟩ ∧
    (read_object_table initialState failFirstReads).2.2 =
      (List.range (u8 2)).map (addrAt failFirstReads.obj) :=
  ⟨rfl, (c3_address_advance failFirstReads ⟨166, 0, 1, 0, 14, 10, 2⟩ rfl).1⟩

/-- C7: if the capability-table header read fails, resolution starting
from the fresh session state leaves the state untouched — every entry
of the address map absent — and the configuration writer subsequently
performs zero bus writes. -/
theorem c7_header_failure (o : ObjectTableReads) (hinfo : o.info = none) :
    (read_object_table initialState o).1 = initialState ∧
    addressMapAbsent (read_object_table initialState o).1 ∧
    (∀ (cfg : ConfigReads) (w h mx my : Nat),
      write_configuration (read_object_table initialState o).1 cfg w h mx my
        = []) := by
  have hs : (read_object_table initialState o).1 = initialState := by
    unfold read_object_table
    rw [hinfo]
  refine ⟨hs, ?_, ?_⟩
  · rw [hs]
    exact ⟨rfl, rfl, rfl, rfl, rfl, rfl, rfl, rfl⟩
  · intro cfg w h mx my
    rw [hs]
    simp [write_configuration, initialState]

/-- Witness for C7 at the concrete header-failure oracle. -/
theorem c7_header_failure_witness :
    headerFailReads.info = none ∧
    (read_object_table initialState headerFailReads).1 = initialState ∧
    write_configuration (read_object_table initialState headerFailReads).1
      ⟨none⟩ 107 113 14 10 = [] :=
  ⟨rfl, (c7_header_failure headerFailReads rfl).1,
    (c7_header_failure headerFailReads rfl).2.2 ⟨none⟩ 107 113 14 10⟩

/-- A cast natural number indexes like `List.get?`. -/
theorem listIdx_natCast (l : List Nat) (i : Nat) :
    listIdx l (i : Int) = l.get? i := rfl

/-- Under the assignment invariant, index 0 of the per-finger id array
holds `t100_first_report_id + 2`. -/
theorem wf_listIdx_zero (s : MxtState) (hwf : id_assignment_wf s) :
    listIdx s.t100_subsequent_report_ids 0 =
      some (s.t100_first_report_id + 2) := by
  have h1 : 1 ≤ s.t100_num_reports := hwf.2.1
  have h := hwf.2.2.2 0 (by omega)
  show s.t100_subsequent_report_ids.get? 0 = _
  rw [h]

/-- Under the assignment invariant, index `t100_num_reports - 1` of the
per-finger id array holds the last assigned id. -/
theorem wf_listIdx_last (s : MxtState) (hwf : id_assignment_wf s) :
    listIdx s.t100_subsequent_report_ids ((s.t100_num_reports : Int) - 1) =
      some (s.t100_first_report_id + 2 + (s.t100_num_reports - 1)) := by
  have h1 : 1 ≤ s.t100_num_reports := hwf.2.1
  have hcast : ((s.t100_num_reports : Int) - 1) =
      ((s.t100_num_reports - 1 : Nat) : Int) := by omega
  rw [hcast, listIdx_natCast]
  exact hwf.2.2.2 (s.t100_num_reports - 1) (by omega)

/-- A record carrying the touch capability's first report id is a
no-op (`src/maxtouch.c` lines 242-245). -/
theorem processMessage_first (s : MxtState) (d : digitizer_t)
    (m : mxt_message) (h : m.report_id = s.t100_first_report_id) :
    processMessage s d m = some d := by
  unfold processMessage
  rw [if_pos h]

/-- A record whose id falls below the per-finger range reaches the
unhandled-record diagnostic. -/
theorem processMessage_low (s : MxtState) (d : digitizer_t)
    (m : mxt_message) (hwf : id_assignment_wf s)
    (h1 : m.report_id ≠ s.t100_first_report_id)
    (h2 : m.report_id < s.t100_first_report_id + 2) :
    processMessage s d m = unhandledDiagnostic s d := by
  unfold processMessage
  rw [if_neg h1, wf_listIdx_zero s hwf]
  dsimp only
  rw [if_neg (by omega)]

/-- A record whose id falls above the per-finger range reaches the
unhandled-record diagnostic. -/
theorem processMessage_high (s : MxtState) (d : digitizer_t)
    (m : mxt_message) (hwf : id_assignment_wf s)
    (h1 : m.report_id ≠ s.t100_first_report_id)
    (h2 : s.t100_first_report_id + 2 + (s.t100_num_reports - 1)
      < m.report_id) :
    processMessage s d m = unhandledDiagnostic s d := by
  unfold processMessage
  rw [if_neg h1, wf_listIdx_zero s hwf]
  dsimp only
  rw [if_pos (by omega), wf_listIdx_last s hwf]
  dsimp only
  rw [if_neg (by omega)]

/-- A record whose id is the k-th per-finger id updates exactly finger
k through `applyEvent`. -/
theorem processMessage_inRange (s : MxtState) (d : digitizer_t)
    (m : mxt_message) (k : Nat) (hwf : id_assignment_wf s)
    (hd : d.fingers.length = NUM_FINGERS)
    (hk : k < s.t100_num_reports)
    (hr : m.report_id = s.t100_first_report_id + 2 + k) :
    processMessage s d m = some ⟨d.fingers.set k
      (applyEvent (d.fingers.getD k finger_default)
        (eventOf m) (xOf m) (yOf m))⟩ := by
  have hnum : s.t100_num_reports ≤ NUM_FINGERS := hwf.2.2.1
  have hnf : NUM_FINGERS = 5 := rfl
  unfold processMessage
  rw [if_neg (by omega), wf_listIdx_zero s hwf]
  dsimp only
  rw [if_pos (by omega), wf_listIdx_last s hwf]
  dsimp only
  rw [if_pos (by omega)]
  have hcid : u8 (m.report_id - (s.t100_first_report_id + 2)) = k := by
    unfold u8
    omega
  rw [hcid, if_pos (by omega)]

/-- With fewer than NUM_FINGERS per-finger ids assigned, all three
diagnostic argument reads are in bounds and the unhandled record is
cleanly discarded. -/
theorem unhandledDiagnostic_lt (s : MxtState) (d : digitizer_t)
    (hwf : id_assignment_wf s)
    (hlt : s.t100_num_reports < NUM_FINGERS) :
    unhandledDiagnostic s d = some d := by
  have hlen : s.t100_subsequent_report_ids.length = NUM_FINGERS := hwf.1
  have h1 : 1 ≤ s.t100_num_reports := hwf.2.1
  have h0 : listIdx s.t100_subsequent_report_ids 0 =
      some (s.t100_first_report_id + 2) := wf_listIdx_zero s hwf
  obtain ⟨v1, hv1⟩ : ∃ v,
      s.t100_subsequent_report_ids.get? s.t100_num_reports = some v :=
    ⟨_, List.get?_eq_get (by omega)⟩
  have hA : listIdx s.t100_subsequent_report_ids
      (s.t100_num_reports : Int) = some v1 := hv1
  unfold unhandledDiagnostic
  rw [h0, hA, wf_listIdx_last s hwf]

/-- With all NUM_FINGERS per-finger ids assigned, the diagnostic reads
`t100_subsequent_report_ids[t100_num_reports]`, one past the end of the
array, so the unhandled record is not cleanly discarded: processing
yields the error value. -/
theorem unhandledDiagnostic_full (s : MxtState) (d : digitizer_t)
    (hwf : id_assignment_wf s)
    (hfull : s.t100_num_reports = NUM_FINGERS) :
    unhandledDiagnostic s d = none := by
  have hlen : s.t100_subsequent_report_ids.length = NUM_FINGERS := hwf.1
  have h0 : listIdx s.t100_subsequent_report_ids 0 =
      some (s.t100_first_report_id + 2) := wf_listIdx_zero s hwf
  have hnone : s.t100_subsequent_report_ids.get? s.t100_num_reports =
      none := List.get?_eq_none.mpr (by omega)
  have hA : listIdx s.t100_subsequent_report_ids
      (s.t100_num_reports : Int) = none := hnone
  unfold unhandledDiagnostic
  rw [h0, hA, wf_listIdx_last s hwf]

/-- C2 counterexample: at a fully-resolved state (all NUM_FINGERS
per-finger ids assigned, the normal outcome of resolving a touch
capability with at least NUM_FINGERS reports per instance), a record
whose id lies above the per-finger range is not discarded with the
state unchanged — the unhandled-record diagnostic reads the report-id
array at index `t100_num_reports`, out of bounds, and processing
returns the error value. -/
theorem c2_counterexample :
    wfState.t100_num_reports = NUM_FINGERS ∧
    (9:Nat) ≠ wfState.t100_first_report_id ∧
    wfState.t100_first_report_id + 2 +
      (wfState.t100_num_reports - 1) < 9 ∧
    processMessage wfState emptyDigitizer
      { report_id := 9, data := fun _ => 0 } = none ∧
    ¬ processMessage wfState emptyDigitizer
      { report_id := 9, data := fun _ => 0 } = some emptyDigitizer := by
  refine ⟨rfl, by decide, by decide, by decide, by decide⟩

/-- C2 amended: under the id assignment the resolver establishes
(consecutive per-finger ids, at most NUM_FINGERS of them), every record
whose id lies in the per-finger range yields a contact index below the
DigitizerState capacity and updates exactly that finger — the fingers
array is never indexed out of bounds.  A record outside the range
reaches the unhandled-record diagnostic: it is discarded with the
state unchanged when `t100_num_reports < NUM_FINGERS`, but when all
NUM_FINGERS ids are assigned the diagnostic itself reads the report-id
array out of bounds and processing yields the error value instead of a
clean discard. -/
theorem c2_contact_bounds (s : MxtState) (d : digitizer_t)
    (hwf : id_assignment_wf s) (hd : d.fingers.length = NUM_FINGERS) :
    (∀ m k, k < s.t100_num_reports →
      m.report_id = s.t100_first_report_id + 2 + k →
      k < d.fingers.length ∧
      processMessage s d m = some ⟨d.fingers.set k
        (applyEvent (d.fingers.getD k finger_default)
          (eventOf m) (xOf m) (yOf m))⟩) ∧
    (∀ m, m.report_id ≠ s.t100_first_report_id →
      (m.report_id < s.t100_first_report_id + 2 ∨
        s.t100_first_report_id + 2 + (s.t100_num_reports - 1)
          < m.report_id) →
      processMessage s d m = unhandledDiagnostic s d ∧
      (s.t100_num_reports < NUM_FINGERS → processMessage s d m = some d) ∧
      (s.t100_num_reports = NUM_FINGERS →
        processMessage s d m = none)) := by
  have hnum : s.t100_num_reports ≤ NUM_FINGERS := hwf.2.2.1
  refine ⟨fun m k hk hr =>
    ⟨by omega, processMessage_inRange s d m k hwf hd hk hr⟩,
    fun m ha hb => ?_⟩
  have hdiag : processMessage s d m = unhandledDiagnostic s d := by
    rcases hb with hb | hb
    · exact processMessage_low s d m hwf ha hb
    · exact processMessage_high s d m hwf ha hb
  exact ⟨hdiag,
    fun hlt => hdiag.trans (unhandledDiagnostic_lt s d hwf hlt),
    fun hfull => hdiag.trans (unhandledDiagnostic_full s d hwf hfull)⟩

/-- Witness for C2 amended at the fully-resolved state: finger index 2
is below capacity for an in-range record (id 5), and the out-of-range
record (id 9) hits the diagnostic's out-of-bounds read. -/
theorem c2_contact_bounds_witness :
    id_assignment_wf wfState ∧
    emptyDigitizer.fingers.length = NUM_FINGERS ∧
    (2:Nat) < emptyDigitizer.fingers.length ∧
    processMessage wfState emptyDigitizer
      { report_id := 9, data := fun _ => 0 } = none :=
  ⟨by unfold id_assignment_wf; decide, by decide,
    ((c2_contact_bounds wfState emptyDigitizer
        (by unfold id_assignment_wf; decide) (by decide)).1
      { report_id := 5, data := fun _ => 0 } 2 (by decide) (by decide)).1,
    ((c2_contact_bounds wfState emptyDigitizer
        (by unfold id_assignment_wf; decide) (by decide)).2
      { report_id := 9, data := fun _ => 0 } (by decide)
      (Or.inr (by decide))).2.2 (by decide)⟩

/-- The confidence flag is recomputed by every record as the negation
of (event is SUP or DOWNSUP), whatever the event. -/
theorem applyEvent_confidence (f : finger_t) (event x y : Nat) :
    (applyEvent f event x y).confidence =
      !(event == SUP || event == DOWNSUP) := by
  unfold applyEvent
  by_cases h : event = UP
  · simp [h]
  · simp [h]

/-- A SUPPRESSED record leaves the finger's tip flag exactly as it
was. -/
theorem applyEvent_sup_tip (f : finger_t) (x y : Nat) :
    (applyEvent f SUP x y).tip = f.tip := by
  simp [applyEvent, SUP, DOWN, UP, UNSUP, DOWNUP]

/-- C5: a record in the per-finger range rewrites its finger through
`applyEvent`, whose confidence flag is always recomputed as the
negation of (event tag is SUPPRESSED or DOWN-THEN-SUPPRESSED); in
particular a SUPPRESSED record sets confidence to false while leaving
the finger's tip flag exactly as before the record. -/
theorem c5_confidence_recompute (s : MxtState) (d : digitizer_t)
    (m : mxt_message) (k : Nat) (hwf : id_assignment_wf s)
    (hd : d.fingers.length = NUM_FINGERS)
    (hk : k < s.t100_num_reports)
    (hr : m.report_id = s.t100_first_report_id + 2 + k) :
    processMessage s d m = some ⟨d.fingers.set k
      (applyEvent (d.fingers.getD k finger_default)
        (eventOf m) (xOf m) (yOf m))⟩ ∧
    (∀ f x y event, (applyEvent f event x y).confidence =
      !(event == SUP || event == DOWNSUP)) ∧
    (eventOf m = SUP →
      (applyEvent (d.fingers.getD k finger_default)
          (eventOf m) (xOf m) (yOf m)).confidence = false ∧
      (applyEvent (d.fingers.getD k finger_default)
          (eventOf m) (xOf m) (yOf m)).tip =
        (d.fingers.getD k finger_default).tip) := by
  refine ⟨processMessage_inRange s d m k hwf hd hk hr,
    fun f x y event => applyEvent_confidence f event x y,
    fun hsup => ⟨?_, ?_⟩⟩
  · rw [applyEvent_confidence, hsup]
    rfl
  · rw [hsup]
    exact applyEvent_sup_tip _ _ _

/-- Witness for C5: a SUPPRESSED record for finger 1 (report id 4) in
the concrete resolved state. -/
theorem c5_confidence_recompute_witness :
    id_assignment_wf wfState ∧
    emptyDigitizer.fingers.length = NUM_FINGERS ∧
    (1 < wfState.t100_num_reports ∧
      (4:Nat) = wfState.t100_first_report_id + 2 + 1) ∧
    processMessage wfState emptyDigitizer
        { report_id := 4, data := fun _ => SUP } =
      some ⟨emptyDigitizer.fingers.set 1
        (applyEvent (emptyDigitizer.fingers.getD 1 finger_default)
          (eventOf { report_id := 4, data := fun _ => SUP })
          (xOf { report_id := 4, data := fun _ => SUP })
          (yOf { report_id := 4, data := fun _ => SUP }))⟩ :=
  ⟨by unfold id_assignment_wf; decide, by decide, ⟨by decide, by decide⟩,
    (c5_confidence_recompute wfState emptyDigitizer
      { report_id := 4, data := fun _ => SUP } 1
      (by unfold id_assignment_wf; decide) (by decide)
      (by decide) (by decide)).1⟩

/-- C9: when no touch capability resolved (`t100_num_reports = 0`, the
id array still at its unset zero values), the classification guard
evaluates the per-finger id array at index `t100_num_reports - 1 = -1`;
under the total embedding the error branch (`none`) is reached for
every record whose id is not the touch capability's first report id,
and a whole decode cycle with such a pending record aborts with the
error value. -/
theorem c9_unresolved_touch_oob (s : MxtState) (d : digitizer_t)
    (m : mxt_message)
    (hnum : s.t100_num_reports = 0)
    (hids : s.t100_subsequent_report_ids.get? 0 = some 0)
    (hne : m.report_id ≠ s.t100_first_report_id) :
    processMessage s d m = none ∧
    (s.t44_message_count_address ≠ 0 →
      read_messages s ⟨some 1, fun _ => m⟩ d = none) := by
  have hp : processMessage s d m = none := by
    unfold processMessage
    rw [if_neg hne]
    have h0 : listIdx s.t100_subsequent_report_ids 0 = some 0 := hids
    rw [h0]
    dsimp only
    rw [if_pos (Nat.zero_le _), hnum]
    rfl
  refine ⟨hp, fun h44 => ?_⟩
  unfold read_messages
  rw [if_pos h44]
  show runMessages s [m] d = none
  unfold runMessages
  rw [hp]

/-- Witness for C9 at the fresh (unresolved) state. -/
theorem c9_unresolved_touch_oob_witness :
    initialState.t100_num_reports = 0 ∧
    initialState.t100_subsequent_report_ids.get? 0 = some 0 ∧
    (1:Nat) ≠ initialState.t100_first_report_id ∧
    processMessage initialState emptyDigitizer
      { report_id := 1, data := fun _ => 0 } = none :=
  ⟨by decide, by decide, by decide,
    (c9_unresolved_touch_oob initialState emptyDigitizer
      { report_id := 1, data := fun _ => 0 }
      (by decide) (by decide) (by decide)).1⟩

/-- C8: the decoder reads exactly the declared number of records —
its result depends only on the message reads below the declared count —
and it returns the input DigitizerState unchanged when the
message-count capability is unresolved, when the count read fails, or
when the declared count is zero. -/
theorem c8_decoder_bounded :
    (∀ (s : MxtState) (o : MessageReads) (d : digitizer_t),
      s.t44_message_count_address = 0 → read_messages s o d = some d) ∧
    (∀ (s : MxtState) (o : MessageReads) (d : digitizer_t),
      o.message_count = none → read_messages s o d = some d) ∧
    (∀ (s : MxtState) (o : MessageReads) (d : digitizer_t),
      o.message_count = some 0 → read_messages s o d = some d) ∧
    (∀ (s : MxtState) (o1 o2 : MessageReads) (d : digitizer_t),
      o1.message_count = o2.message_count →
      (∀ c, o1.message_count = some c →
        ∀ i, i < u8 c → o1.messages i = o2.messages i) →
      read_messages s o1 d = read_messages s o2 d) := by
  refine ⟨?_, ?_, ?_, ?_⟩
  · intro s o d h
    simp [read_messages, h]
  · intro s o d h
    simp [read_messages, h]
  · intro s o d h
    simp [read_messages, h, runMessages, u8]
  · intro s o1 o2 d hmc hmsg
    unfold read_messages
    by_cases h44 : s.t44_message_count_address ≠ 0
    · rw [if_pos h44, if_pos h44]
      cases hc1 : o1.message_count with
      | none =>
        rw [hc1] at hmc
        rw [← hmc]
      | some c =>
        rw [hc1] at hmc
        rw [← hmc]
        dsimp only
        have : (List.range (u8 c)).map o1.messages =
            (List.range (u8 c)).map o2.messages :=
          List.map_congr_left fun i hi =>
            hmsg c hc1 i (List.mem_range.mp hi)
        rw [this]
    · rw [if_neg h44, if_neg h44]

/-- Witness for C8: an unresolved message-count capability returns the
input unchanged, and two oracles agreeing on the two declared records
decode identically even though they disagree beyond the count. -/
theorem c8_decoder_bounded_witness :
    initialState.t44_message_count_address = 0 ∧
    read_messages initialState
      { message_count := some 3
        messages := fun _ => { report_id := 0, data := fun _ => 0 } }
      emptyDigitizer = some emptyDigitizer ∧
    read_messages wfState
      { message_count := some 2
        messages := fun i => { report_id := i, data := fun _ => 0 } }
      emptyDigitizer =
    read_messages wfState
      { message_count := some 2
        messages := fun i => if i < 2 then { report_id := i, data := fun _ => 0 }
          else { report_id := 99, data := fun _ => 7 } }
      emptyDigitizer :=
  ⟨rfl,
    c8_decoder_bounded.1 initialState
      ⟨some 3, fun _ => ⟨0, fun _ => 0⟩⟩ emptyDigitizer rfl,
    c8_decoder_bounded.2.2.2 wfState
      ⟨some 2, fun i => ⟨i, fun _ => 0⟩⟩
      ⟨some 2, fun i => if i < 2 then ⟨i, fun _ => 0⟩
        else ⟨99, fun _ => 7⟩⟩
      emptyDigitizer rfl
      (fun c hc i hi => by
        obtain rfl := Option.some.inj hc
        show (⟨i, fun _ => 0⟩ : mxt_message) =
          if i < 2 then ⟨i, fun _ => 0⟩ else ⟨99, fun _ => 7⟩
        rw [if_pos (show i < 2 from hi)])⟩

/-- Folding exactly two records. -/
theorem runMessages_two (s : MxtState) (m1 m2 : mxt_message)
    (d d1 d2 : digitizer_t)
    (h1 : processMessage s d m1 = some d1)
    (h2 : processMessage s d1 m2 = some d2) :
    runMessages s [m1, m2] d = some d2 := by
  show (match processMessage s d m1 with
    | some d0 => runMessages s [m2] d0
    | none => none) = some d2
  rw [h1]
  show (match processMessage s d1 m2 with
    | some d0 => runMessages s [] d0
    | none => none) = some d2
  rw [h2]
  rfl

/-- Reading back the slot just written. -/
theorem getD_set_self (l : List finger_t) (k : Nat) (a b : finger_t)
    (h : k < l.length) : (l.set k a).getD k b = a := by
  have h2 : k < (l.set k a).length := by simpa using h
  rw [List.getD_eq_getElem _ _ h2]
  simp

/-- C4: from any all-inactive full-capacity DigitizerState, decoding a
DOWN record for a valid finger `k` at (100, 200) followed by an UP
record for the same finger leaves that finger with tip cleared,
confidence true, and the position still (100, 200) — the UP record
clears tip but does not update the stored position. -/
theorem c4_down_then_up (s : MxtState) (d : digitizer_t) (k : Nat)
    (hwf : id_assignment_wf s)
    (h44 : s.t44_message_count_address ≠ 0)
    (hd : d.fingers.length = NUM_FINGERS)
    (hinactive : ∀ f ∈ d.fingers, f.tip = false)
    (hk : k < s.t100_num_reports) :
    ∃ d2, read_messages s
      { message_count := some 2
        messages := fun i => if i = 0 then
          downMessage s.t100_first_report_id k
          else upMessage s.t100_first_report_id k } d = some d2 ∧
      d2.fingers.get? k = some ⟨true, false, 100, 200⟩ := by
  have hnum : s.t100_num_reports ≤ NUM_FINGERS := hwf.2.2.1
  have hnf : NUM_FINGERS = 5 := rfl
  have hklen : k < d.fingers.length := by omega
  have hp1 := processMessage_inRange s d
    (downMessage s.t100_first_report_id k) k hwf hd hk rfl
  have hevDown : eventOf (downMessage s.t100_first_report_id k) = DOWN := by
    simp only [eventOf, downMessage, u8, DOWN]
    decide
  have hxDown : xOf (downMessage s.t100_first_report_id k) = 100 := by
    simp [xOf, downMessage, u8]
  have hyDown : yOf (downMessage s.t100_first_report_id k) = 200 := by
    simp [yOf, downMessage, u8]
  rw [hevDown, hxDown, hyDown] at hp1
  have hA : applyEvent (d.fingers.getD k finger_default) DOWN 100 200 =
      ⟨true, true, 100, 200⟩ := by
    simp [applyEvent, DOWN, UP, UNSUP, DOWNUP, SUP, DOWNSUP]
  rw [hA] at hp1
  have hd1 : ((⟨d.fingers.set k ⟨true, true, 100, 200⟩⟩ :
      digitizer_t)).fingers.length = NUM_FINGERS := by
    simpa [List.length_set] using hd
  have hp2 := processMessage_inRange s
    ⟨d.fingers.set k ⟨true, true, 100, 200⟩⟩
    (upMessage s.t100_first_report_id k) k hwf hd1 hk rfl
  have hevUp : eventOf (upMessage s.t100_first_report_id k) = UP := by
    simp only [eventOf, upMessage, u8, UP]
    decide
  have hxUp : xOf (upMessage s.t100_first_report_id k) = 0 := by
    simp [xOf, upMessage, u8]
  have hyUp : yOf (upMessage s.t100_first_report_id k) = 0 := by
    simp [yOf, upMessage, u8]
  rw [hevUp, hxUp, hyUp] at hp2
  have hgd : ((⟨d.fingers.set k ⟨true, true, 100, 200⟩⟩ :
      digitizer_t)).fingers.getD k finger_default =
      (⟨true, true, 100, 200⟩ : finger_t) :=
    getD_set_self d.fingers k _ _ hklen
  rw [hgd] at hp2
  have hB : applyEvent (⟨true, true, 100, 200⟩ : finger_t) UP 0 0 =
      ⟨true, false, 100, 200⟩ := by decide
  rw [hB] at hp2
  refine ⟨⟨(d.fingers.set k ⟨true, true, 100, 200⟩).set k
    ⟨true, false, 100, 200⟩⟩, ?_, ?_⟩
  · unfold read_messages
    rw [if_pos h44]
    show runMessages s [downMessage s.t100_first_report_id k,
      upMessage s.t100_first_report_id k] d = _
    exact runMessages_two s _ _ d _ _ hp1 hp2
  · dsimp only
    rw [List.get?_set_eq_of_lt _
      (show k < (d.fingers.set k ⟨true, true, 100, 200⟩).length by
        simpa [List.length_set] using hklen)]

/-- Witness for C4: finger 2 in the concrete resolved state, starting
from the all-inactive digitizer. -/
theorem c4_down_then_up_witness :
    id_assignment_wf wfState ∧
    wfState.t44_message_count_address ≠ 0 ∧
    emptyDigitizer.fingers.length = NUM_FINGERS ∧
    (∀ f ∈ emptyDigitizer.fingers, f.tip = false) ∧
    2 < wfState.t100_num_reports ∧
    (∃ d2, read_messages wfState
      { message_count := some 2
        messages := fun i => if i = 0 then
          downMessage wfState.t100_first_report_id 2
          else upMessage wfState.t100_first_report_id 2 }
      emptyDigitizer = some d2 ∧
      d2.fingers.get? 2 = some ⟨true, false, 100, 200⟩) :=
  ⟨by unfold id_assignment_wf; decide, by decide, by decide, by decide,
    by decide,
    c4_down_then_up wfState emptyDigitizer 2
      (by unfold id_assignment_wf; decide) (by decide) (by decide)
      (by decide) (by decide)⟩

/-- C10: the configuration writer ignores the status of the initial
read of the current t100 record — when that read fails it still sets
the configuration fields on the zero-initialized record and writes it
back to the device as the final bus write, instead of skipping or
aborting. -/
theorem c10_ignored_read_status (s : MxtState) (o : ConfigReads)
    (w h mx my : Nat)
    (haddr : s.t100_multiple_touch_touchscreen_address ≠ 0)
    (hfail : o.t100_read = none) :
    (write_configuration s o w h mx my).getLast? =
      some (bus_write.t100 s.t100_multiple_touch_touchscreen_address
        (t100_configure zeroT100 s.cpi mx my w h)) := by
  unfold write_configuration
  rw [hfail, if_pos haddr, List.getLast?_concat]
  rfl

/-- Witness for C10: only the t100 address resolved, the current-record
read fails, yet the configured zero record is written. -/
theorem c10_ignored_read_status_witness :
    t100OnlyState.t100_multiple_touch_touchscreen_address ≠ 0 ∧
    (write_configuration t100OnlyState ⟨none⟩ 107 113 14 10).getLast? =
      some (bus_write.t100 900 (t100_configure zeroT100 600 14 10 107 113)) :=
  ⟨by decide,
    c10_ignored_read_status t100OnlyState ⟨none⟩ 107 113 14 10
      (by decide) rfl⟩
